import Mathlib

/-!
Shallow embedding of `src/monitoring/theft_detector.py` (class `TheftDetector`),
the continuous theft-surveillance loop of the Retail-X backend.

The detection loop `TheftDetector.run` maintains three pieces of state
(`history` — a `deque(maxlen=10)` of 0/1 concealment flags, `consecutive_count`,
`last_alert_time`) and, per frame, appends the concealment flag to the history,
updates the consecutive counter, and emits an alert when
`consecutive_count >= alert_frames_threshold` and
`now - last_alert_time > alert_cooldown`; on an alert it writes an annotated
snapshot, attempts a Telegram notification, records `last_alert_time = now`,
zeroes the counter and clears the history.

The embedding models frame times (seconds) as elements of an arbitrary linearly
ordered ring, covering real-valued wall clocks, the external detector
as a per-frame outcome (a raised exception or a raw class list that may be
`None`), and the dispatcher's externally visible behaviour as an event trace
(file open, file write, network post) plus a boolean result.
-/

namespace RetailX

variable {R : Type} [LinearOrderedRing R]

/-- Configuration fields fixed in `TheftDetector.__init__`:
`alert_frames_threshold = 3`, `alert_cooldown = 30`, `max_buffer_len = 10`. -/
structure TheftConfig (R : Type) where
  alert_frames_threshold : Nat
  alert_cooldown : R
  max_buffer_len : Nat

/-- The values hard-coded in `__init__`. -/
def defaultConfig : TheftConfig R :=
  { alert_frames_threshold := 3, alert_cooldown := 30, max_buffer_len := 10 }

/-- YOLO class id of `product_concealed` (`self.product_concealed_id = 3`). -/
def product_concealed_id : Nat := 3

/-- Mutable state of the detector: `self.history` (deque of 0/1 ints,
maxlen `max_buffer_len`), `self.consecutive_count`, `self.last_alert_time`. -/
structure TrackerState (R : Type) where
  history : List Nat
  consecutive_count : Nat
  last_alert_time : R
deriving DecidableEq

/-- State right after `__init__`: empty deque, zero count, `last_alert_time = 0`. -/
def initState : TrackerState R :=
  { history := [], consecutive_count := 0, last_alert_time := 0 }

/-- `deque(maxlen=n).append x`: push right, evict from the left past capacity. -/
def dequeAppend (maxlen : Nat) (h : List Nat) (x : Nat) : List Nat :=
  let h2 := h ++ [x]
  if maxlen < h2.length then h2.drop (h2.length - maxlen) else h2

/-- One iteration of the state update in `TheftDetector.run` (lines 134-154),
given the per-frame concealment flag and the wall-clock time `now`:
append the flag to the history, bump or zero the consecutive counter, and
fire an alert when the counter is at threshold and the cooldown has passed;
on an alert the counter is zeroed, the history cleared and `now` recorded.
Returns the next state and whether an alert was emitted this frame. -/
def step (cfg : TheftConfig R) (s : TrackerState R) (concealed : Bool) (now : R) :
    TrackerState R × Bool :=
  let hist := dequeAppend cfg.max_buffer_len s.history (if concealed then 1 else 0)
  let cc := if concealed then s.consecutive_count + 1 else 0
  if cfg.alert_frames_threshold ≤ cc ∧ cfg.alert_cooldown < now - s.last_alert_time then
    ({ history := [], consecutive_count := 0, last_alert_time := now }, true)
  else
    ({ history := hist, consecutive_count := cc, last_alert_time := s.last_alert_time }, false)

/-- Run the loop over a list of frames, each given as
(concealment flag, frame time). Returns the per-frame alert flags and the
final state. -/
def runTracker (cfg : TheftConfig R) (s : TrackerState R) :
    List (Bool × R) → List Bool × TrackerState R
  | [] => ([], s)
  | (flag, t) :: rest =>
    let p := step cfg s flag t
    let r := runTracker cfg p.1 rest
    (p.2 :: r.1, r.2)

/-- Per-frame alert flags of a run. -/
def runAlerts (cfg : TheftConfig R) (s : TrackerState R) (frames : List (Bool × R)) :
    List Bool :=
  (runTracker cfg s frames).1

/-- Final state of a run. -/
def finalState (cfg : TheftConfig R) (s : TrackerState R) (frames : List (Bool × R)) :
    TrackerState R :=
  (runTracker cfg s frames).2

/-- Emission times of the alerts of a run, in order. -/
def alertTimes (cfg : TheftConfig R) (s : TrackerState R) :
    List (Bool × R) → List R
  | [] => []
  | (flag, t) :: rest =>
    let p := step cfg s flag t
    if p.2 then t :: alertTimes cfg p.1 rest else alertTimes cfg p.1 rest

/-- State of the spec's Concealment State Tracker plus Alert Cooldown Gate
(spec sections 4.2 and 4.3), without the diagnostic History Window. -/
structure SpecGateState (R : Type) where
  count : Nat
  last_alert_time : R
deriving DecidableEq

/-- Spec section 4.2, `observe`: bump the count on a present flag, zero it
otherwise, and report whether the count reached `alert_frames_threshold`. -/
def specObserve (threshold : Nat) (count : Nat) (present : Bool) : Nat × Bool :=
  let c := if present then count + 1 else 0
  (c, decide (threshold ≤ c))

/-- Spec section 4.3, `allow(now)`: true iff
`now - last_alert_time > alert_cooldown` (strict). -/
def gateAllow (cooldown last now : R) : Bool :=
  decide (cooldown < now - last)

/-- One frame of the spec-described tracker and gate: an alert fires exactly
when `observe` reports the threshold reached and the gate allows it; a blocked
trigger keeps accumulating, a fired one resets the count and records `now`. -/
def specStep (threshold : Nat) (cooldown : R) (st : SpecGateState R)
    (present : Bool) (now : R) : SpecGateState R × Bool :=
  let ob := specObserve threshold st.count present
  if ob.2 && gateAllow cooldown st.last_alert_time now then
    ({ count := 0, last_alert_time := now }, true)
  else
    ({ count := ob.1, last_alert_time := st.last_alert_time }, false)

/-- Per-frame alert flags of the spec-described machine. -/
def specAlerts (threshold : Nat) (cooldown : R) (st : SpecGateState R) :
    List (Bool × R) → List Bool
  | [] => []
  | (flag, t) :: rest =>
    let p := specStep threshold cooldown st flag t
    p.2 :: specAlerts threshold cooldown p.1 rest

/-- Telegram fields fixed in `__init__`: `use_telegram`, `telegram_token`,
`telegram_chat_id`. -/
structure TelegramConfig where
  use_telegram : Bool
  telegram_token : String
  telegram_chat_id : String
deriving DecidableEq

/-- Outcome of the one network attempt inside `_send_telegram_photo`:
either a response with an HTTP status code, or a raised exception
(connection error, timeout, ...). -/
inductive NetOutcome where
  | response (status : Nat)
  | exn (msg : String)
deriving DecidableEq

/-- Externally visible effects of the alert path. -/
inductive Event where
  | fsOpen (path : String)
  | fsWrite (path : String)
  | fsRemove (path : String)
  | netPost (url : String) (chat_id caption : String)
deriving DecidableEq

/-- Whether an event deletes a file. -/
def Event.isRemove : Event → Bool
  | .fsRemove _ => true
  | _ => false

/-- The sendPhoto endpoint URL built in `_send_telegram_photo`. -/
def telegramUrl (token : String) : String :=
  "https://api.telegram.org/bot" ++ token ++ "/sendPhoto"

/-- Body of the `try` block of `_send_telegram_photo`: open the image and POST
it with the chat id and caption as data; the result is the status code, or an
error when the attempt raised. -/
def sendAttempt (tc : TelegramConfig) (net : NetOutcome) (image_path caption : String) :
    List Event × Except String Nat :=
  ([Event.fsOpen image_path,
    Event.netPost (telegramUrl tc.telegram_token) tc.telegram_chat_id caption],
    match net with
    | .response code => Except.ok code
    | .exn m => Except.error m)

/-- `TheftDetector._send_telegram_photo` (lines 80-98): returns `false` without
any effect when Telegram is disabled or the token or chat id is empty;
otherwise it makes one attempt, returns `true` exactly when the status code is
200, and catches any exception of the attempt, returning `false`. -/
def sendTelegramPhoto (tc : TelegramConfig) (net : NetOutcome)
    (image_path caption : String) : Bool × List Event :=
  if tc.use_telegram = false ∨ tc.telegram_token = "" ∨ tc.telegram_chat_id = "" then
    (false, [])
  else
    let a := sendAttempt tc net image_path caption
    match a.2 with
    | .ok code => ((code == 200), a.1)
    | .error _ => (false, a.1)

/-- The alert branch of `TheftDetector.run` (lines 140-150, effects only):
write the annotated snapshot with `cv2.imwrite`, then attempt the Telegram
notification. Returns the event trace and the dispatch result. The `caption`
string is passed through to the dispatcher. -/
def alertAction (tc : TelegramConfig) (net : NetOutcome)
    (snapshot_path caption : String) : List Event × Bool :=
  let s := sendTelegramPhoto tc net snapshot_path caption
  (Event.fsWrite snapshot_path :: s.2, s.1)

/-- A set of files on disk, updated by replaying an event. -/
def applyEvent (fs : List String) : Event → List String
  | .fsWrite p => p :: fs
  | .fsRemove p => fs.erase p
  | .fsOpen _ => fs
  | .netPost _ _ _ => fs

/-- Replay a trace of events over a file set. -/
def applyEvents (fs : List String) (evs : List Event) : List String :=
  evs.foldl applyEvent fs

/-- Per-frame output of the external detector inside the loop
(`self.model.predict`): either a raised exception, or raw output whose
`boxes` field may be `None`; only the class ids matter for concealment. -/
inductive DetOutcome where
  | exn (msg : String)
  | ok (boxes : Option (List Nat))
deriving DecidableEq

/-- Whether the detector raised on this frame. -/
def DetOutcome.isExn : DetOutcome → Bool
  | .exn _ => true
  | .ok _ => false

/-- Lines 125-132 of `run`: class ids are extracted only when
`res.boxes is not None and len(res.boxes) > 0`; otherwise the frame has zero
detections. -/
def extractClasses : Option (List Nat) → List Nat
  | none => []
  | some bs => if 0 < bs.length then bs else []

/-- One frame as seen by the loop: detector outcome and wall-clock time. -/
structure FrameObs (R : Type) where
  det : DetOutcome
  time : R
deriving DecidableEq

/-- The body of the `while` loop of `TheftDetector.run` over a frame sequence.
There is no exception handler around the detector call, so a raised exception
propagates out of `run`: the loop stops there, returning the per-frame alert
flags of the frames processed so far, the tracker state reached, and the
pending exception (`none` when the whole sequence was processed). -/
def processFrames (cfg : TheftConfig R) (s : TrackerState R) :
    List (FrameObs R) → List Bool × TrackerState R × Option String
  | [] => ([], s, none)
  | f :: rest =>
    match f.det with
    | .exn m => ([], s, some m)
    | .ok raw =>
      let classes := extractClasses raw
      let concealed := classes.any (fun c => c == product_concealed_id)
      let p := step cfg s concealed f.time
      let r := processFrames cfg p.1 rest
      (p.2 :: r.1, r.2)

/-- Spec Scenario A input at its literal times: concealment flags
`[0,0,1,1,1,0]` observed at seconds 0 through 5. -/
def scenarioAFrames : List (Bool × ℤ) :=
  [(false, 0), (false, 1), (true, 2), (true, 3), (true, 4), (false, 5)]

/-- Spec Scenario C input: ten frames at seconds 1 through 10, the fifth of
which raises inside the detector call; the others return a `None` box set, an
empty one, or some detections. -/
def scenarioCFrames : List (FrameObs ℤ) :=
  [{ det := .ok none, time := 1 }, { det := .ok (some []), time := 2 },
   { det := .ok (some [3]), time := 3 }, { det := .ok (some [0, 3]), time := 4 },
   { det := .exn "boom", time := 5 },
   { det := .ok none, time := 6 }, { det := .ok none, time := 7 },
   { det := .ok none, time := 8 }, { det := .ok none, time := 9 },
   { det := .ok none, time := 10 }]

/-- Unfolding of `step` in the alert case. -/
theorem step_pos (cfg : TheftConfig R) (s : TrackerState R) (concealed : Bool) (now : R)
    (h : cfg.alert_frames_threshold ≤ (if concealed then s.consecutive_count + 1 else 0) ∧
      cfg.alert_cooldown < now - s.last_alert_time) :
    step cfg s concealed now =
      ({ history := [], consecutive_count := 0, last_alert_time := now }, true) := by
  simp only [step]
  rw [if_pos h]

/-- Unfolding of `step` in the no-alert case. -/
theorem step_neg (cfg : TheftConfig R) (s : TrackerState R) (concealed : Bool) (now : R)
    (h : ¬ (cfg.alert_frames_threshold ≤ (if concealed then s.consecutive_count + 1 else 0) ∧
      cfg.alert_cooldown < now - s.last_alert_time)) :
    step cfg s concealed now =
      ({ history := dequeAppend cfg.max_buffer_len s.history (if concealed then 1 else 0),
         consecutive_count := if concealed then s.consecutive_count + 1 else 0,
         last_alert_time := s.last_alert_time }, false) := by
  simp only [step]
  rw [if_neg h]

/-- An emitted alert means the counter was at threshold and the cooldown open. -/
theorem step_emits_iff (cfg : TheftConfig R) (s : TrackerState R) (concealed : Bool) (now : R) :
    (step cfg s concealed now).2 = true ↔
      (cfg.alert_frames_threshold ≤ (if concealed then s.consecutive_count + 1 else 0) ∧
        cfg.alert_cooldown < now - s.last_alert_time) := by
  by_cases h : cfg.alert_frames_threshold ≤ (if concealed then s.consecutive_count + 1 else 0) ∧
      cfg.alert_cooldown < now - s.last_alert_time
  · rw [step_pos cfg s concealed now h]
    simpa using h
  · rw [step_neg cfg s concealed now h]
    simpa using h

/-- The implementation's per-frame alert flags coincide with those of the
spec-described tracker-plus-gate machine whenever the counter and last alert
time agree; the history deque plays no role in the decision. -/
theorem runAlerts_eq_specAlerts (cfg : TheftConfig R) :
    ∀ (frames : List (Bool × R)) (s : TrackerState R) (st : SpecGateState R),
      s.consecutive_count = st.count → s.last_alert_time = st.last_alert_time →
      runAlerts cfg s frames =
        specAlerts cfg.alert_frames_threshold cfg.alert_cooldown st frames := by
  intro frames
  induction frames with
  | nil => intro s st _ _; rfl
  | cons f rest ih =>
    intro s st hc hl
    obtain ⟨flag, t⟩ := f
    by_cases h : cfg.alert_frames_threshold ≤ (if flag then s.consecutive_count + 1 else 0) ∧
        cfg.alert_cooldown < t - s.last_alert_time
    · have hspec : (decide (cfg.alert_frames_threshold ≤ (if flag then st.count + 1 else 0)) &&
          gateAllow cfg.alert_cooldown st.last_alert_time t) = true := by
        rw [← hc, ← hl]
        simp [gateAllow, h.1, h.2]
      simp only [runAlerts, runTracker, specAlerts, step_pos cfg s flag t h,
        specStep, specObserve, hspec, if_pos]
      exact congrArg (List.cons true) (ih _ _ rfl rfl)
    · have hspec : ¬ ((decide (cfg.alert_frames_threshold ≤ (if flag then st.count + 1 else 0)) &&
          gateAllow cfg.alert_cooldown st.last_alert_time t) = true) := by
        rw [← hc, ← hl]
        simpa [gateAllow, Decidable.not_and_iff_or_not] using h
      rw [Bool.not_eq_true] at hspec
      simp only [runAlerts, runTracker, specAlerts, step_neg cfg s flag t h,
        specStep, specObserve, hspec, if_neg, Bool.false_eq_true, not_false_iff]
      refine congrArg (List.cons false) (ih _ _ ?_ ?_) <;> simp [hc, hl]

/-- C1: for every sequence of per-frame concealment flags and frame times, the
loop emits an alert exactly at those frames where the spec's run-length tracker
(count of consecutive `true` flags, reset on alert) reaches
`alert_frames_threshold` and the cooldown gate `now - last_alert_time >
alert_cooldown` is open, and at no other frame: the implementation's alert
sequence equals that of the spec-described tracker-plus-gate machine started
from count 0 and last alert time 0. -/
theorem c1_alerts_match_spec_tracker_gate (cfg : TheftConfig R)
    (frames : List (Bool × R)) :
    runAlerts cfg initState frames =
      specAlerts cfg.alert_frames_threshold cfg.alert_cooldown
        { count := 0, last_alert_time := 0 } frames :=
  runAlerts_eq_specAlerts cfg frames initState _ rfl rfl

/-- Each alert time of a run exceeds the `last_alert_time` of the start state
by more than the cooldown, and consecutive alert times are spaced likewise. -/
theorem alertTimes_chain_from (cfg : TheftConfig R) :
    ∀ (frames : List (Bool × R)) (s : TrackerState R),
      List.Chain' (fun a b => cfg.alert_cooldown < b - a)
        (s.last_alert_time :: alertTimes cfg s frames) := by
  intro frames
  induction frames with
  | nil => intro s; simp [alertTimes]
  | cons f rest ih =>
    intro s
    obtain ⟨flag, t⟩ := f
    by_cases h : cfg.alert_frames_threshold ≤ (if flag then s.consecutive_count + 1 else 0) ∧
        cfg.alert_cooldown < t - s.last_alert_time
    · have hstep := step_pos cfg s flag t h
      simp only [alertTimes, hstep]
      exact List.Chain'.cons h.2
        (ih { history := [], consecutive_count := 0, last_alert_time := t })
    · have hstep := step_neg cfg s flag t h
      have ihr := ih { history := dequeAppend cfg.max_buffer_len s.history (if flag then 1 else 0), consecutive_count := if flag then s.consecutive_count + 1 else 0, last_alert_time := s.last_alert_time }
      simp only [alertTimes, hstep]
      simpa using ihr

/-- C2: successively emitted alerts are spaced by strictly more than
`alert_cooldown` seconds, and in any state an alert is emitted only when
`now - last_alert_time > alert_cooldown` (strict). -/
theorem c2_alert_spacing_exceeds_cooldown (cfg : TheftConfig R) :
    (∀ frames : List (Bool × R),
      List.Chain' (fun a b => cfg.alert_cooldown < b - a)
        (alertTimes cfg initState frames)) ∧
    (∀ (s : TrackerState R) (flag : Bool) (now : R),
      (step cfg s flag now).2 = true → cfg.alert_cooldown < now - s.last_alert_time) :=
  ⟨fun frames => (alertTimes_chain_from cfg frames initState).tail,
   fun s flag now h => ((step_emits_iff cfg s flag now).mp h).2⟩

/-- Witness for C2 at concrete inputs: two alerts are emitted at times 102 and
142 of a six-frame run, spaced by more than the default 30-second cooldown, and
a concrete emitting step has its cooldown open. -/
theorem c2_alert_spacing_witness :
    List.Chain' (fun a b => (30 : ℤ) < b - a)
      (alertTimes (R := ℤ) defaultConfig initState
        [(true, 100), (true, 101), (true, 102), (true, 140), (true, 141), (true, 142)]) ∧
    (30 : ℤ) < 140 - 0 :=
  ⟨(c2_alert_spacing_exceeds_cooldown (R := ℤ) defaultConfig).1
      [(true, 100), (true, 101), (true, 102), (true, 140), (true, 141), (true, 142)],
   (c2_alert_spacing_exceeds_cooldown (R := ℤ) defaultConfig).2
      { history := [], consecutive_count := 2, last_alert_time := 0 } true 140 (by decide)⟩

/-- A run of concealment frames whose times all fail the cooldown gate emits no
alert, accumulates the consecutive counter by one per frame, and leaves
`last_alert_time` unchanged. -/
theorem runTracker_blocked_true (cfg : TheftConfig R) :
    ∀ (ts : List R) (s : TrackerState R),
      (∀ t ∈ ts, ¬ cfg.alert_cooldown < t - s.last_alert_time) →
      (runTracker cfg s (ts.map fun t => (true, t))).1 = List.replicate ts.length false ∧
      (runTracker cfg s (ts.map fun t => (true, t))).2.consecutive_count =
        s.consecutive_count + ts.length ∧
      (runTracker cfg s (ts.map fun t => (true, t))).2.last_alert_time =
        s.last_alert_time := by
  intro ts
  induction ts with
  | nil => intro s _; exact ⟨rfl, rfl, rfl⟩
  | cons t rest ih =>
    intro s hblock
    have hneg : ¬ (cfg.alert_frames_threshold ≤ (if true then s.consecutive_count + 1 else 0) ∧
        cfg.alert_cooldown < t - s.last_alert_time) := by
      intro h
      exact hblock t (List.mem_cons_self t rest) h.2
    have hstep : step cfg s true t = ({ history := dequeAppend cfg.max_buffer_len s.history 1, consecutive_count := s.consecutive_count + 1, last_alert_time := s.last_alert_time }, false) := by
      rw [step_neg cfg s true t hneg]
      simp
    have ihr := ih { history := dequeAppend cfg.max_buffer_len s.history 1, consecutive_count := s.consecutive_count + 1, last_alert_time := s.last_alert_time }
      (by intro u hu; exact hblock u (List.mem_cons_of_mem t hu))
    simp only [List.map_cons, runTracker, hstep, List.length_cons]
    refine ⟨by simp [ihr.1, List.replicate_succ], ?_, ihr.2.2⟩
    rw [ihr.2.1]
    show s.consecutive_count + 1 + rest.length = s.consecutive_count + (rest.length + 1)
    omega

/-- C3: from a state whose consecutive counter has already reached
`alert_frames_threshold`, a run of further concealment frames that all fail the
cooldown gate emits no alert, does not reset the counter (it grows by one per
frame) and keeps `last_alert_time`; at the first following concealment frame
whose time clears the cooldown, the alert fires. -/
theorem c3_blocked_trigger_accumulates_then_fires (cfg : TheftConfig R)
    (s : TrackerState R) (ts : List R) (now : R)
    (hthr : cfg.alert_frames_threshold ≤ s.consecutive_count)
    (hblock : ∀ t ∈ ts, ¬ cfg.alert_cooldown < t - s.last_alert_time)
    (hallow : cfg.alert_cooldown < now - s.last_alert_time) :
    runAlerts cfg s (ts.map fun t => (true, t)) = List.replicate ts.length false ∧
    (finalState cfg s (ts.map fun t => (true, t))).consecutive_count =
      s.consecutive_count + ts.length ∧
    (step cfg (finalState cfg s (ts.map fun t => (true, t))) true now).2 = true := by
  obtain ⟨h1, h2, h3⟩ := runTracker_blocked_true cfg ts s hblock
  refine ⟨h1, h2, ?_⟩
  rw [step_emits_iff]
  constructor
  · rw [if_pos rfl]
    unfold finalState
    rw [h2]
    omega
  · unfold finalState
    rw [h3]
    exact hallow

/-- Witness for C3 at concrete inputs: counter already at the default
threshold 3 with last alert at time 100, two concealment frames at times 110
and 120 (both within the 30-second cooldown) emit nothing and raise the
counter to 5, and a concealment frame at time 140 fires. -/
theorem c3_blocked_trigger_witness :
    runAlerts (R := ℤ) defaultConfig
        { history := [1, 1, 1], consecutive_count := 3, last_alert_time := 100 }
        ([110, 120].map fun t => (true, t)) = List.replicate 2 false ∧
    (finalState (R := ℤ) defaultConfig
        { history := [1, 1, 1], consecutive_count := 3, last_alert_time := 100 }
        ([110, 120].map fun t => (true, t))).consecutive_count = 3 + 2 ∧
    (step (R := ℤ) defaultConfig
      (finalState (R := ℤ) defaultConfig
        { history := [1, 1, 1], consecutive_count := 3, last_alert_time := 100 }
        ([110, 120].map fun t => (true, t))) true 140).2 = true :=
  c3_blocked_trigger_accumulates_then_fires (R := ℤ) defaultConfig
    { history := [1, 1, 1], consecutive_count := 3, last_alert_time := 100 }
    [110, 120] 140 (by decide) (by decide) (by decide)

/-- Too few frames to reach the threshold from the current counter: no alert
can be emitted. -/
theorem runAlerts_short (cfg : TheftConfig R) :
    ∀ (frames : List (Bool × R)) (s : TrackerState R),
      frames.length + s.consecutive_count < cfg.alert_frames_threshold →
      runAlerts cfg s frames = List.replicate frames.length false := by
  intro frames
  induction frames with
  | nil => intro s _; rfl
  | cons f rest ih =>
    intro s hlen
    obtain ⟨flag, t⟩ := f
    have hcc : (if flag then s.consecutive_count + 1 else 0) ≤ s.consecutive_count + 1 := by
      split <;> omega
    have hneg : ¬ (cfg.alert_frames_threshold ≤ (if flag then s.consecutive_count + 1 else 0) ∧
        cfg.alert_cooldown < t - s.last_alert_time) := by
      intro h
      have := h.1
      simp only [List.length_cons] at hlen
      omega
    have hstep := step_neg cfg s flag t hneg
    have ihr := ih { history := dequeAppend cfg.max_buffer_len s.history (if flag then 1 else 0), consecutive_count := if flag then s.consecutive_count + 1 else 0, last_alert_time := s.last_alert_time }
      (by simp only [List.length_cons] at hlen; show rest.length + (if flag then s.consecutive_count + 1 else 0) < cfg.alert_frames_threshold; omega)
    simp only [runAlerts, runTracker, hstep, List.length_cons]
    rw [List.replicate_succ]
    exact congrArg (List.cons false) ihr

/-- A run of concealment-free frames keeps the counter at zero and, as long as
the threshold is positive, emits no alert. -/
theorem runTracker_false_frames (cfg : TheftConfig R) (hpos : 0 < cfg.alert_frames_threshold) :
    ∀ (ts : List R) (s : TrackerState R), s.consecutive_count = 0 →
      runAlerts cfg s (ts.map fun t => (false, t)) = List.replicate ts.length false ∧
      (finalState cfg s (ts.map fun t => (false, t))).consecutive_count = 0 := by
  intro ts
  induction ts with
  | nil => intro s h0; exact ⟨rfl, h0⟩
  | cons t rest ih =>
    intro s h0
    have hneg : ¬ (cfg.alert_frames_threshold ≤ (if false then s.consecutive_count + 1 else 0) ∧
        cfg.alert_cooldown < t - s.last_alert_time) := by
      intro h
      have := h.1
      simp only [if_neg Bool.false_ne_true] at this
      omega
    have hstep : step cfg s false t = ({ history := dequeAppend cfg.max_buffer_len s.history 0, consecutive_count := 0, last_alert_time := s.last_alert_time }, false) := by
      rw [step_neg cfg s false t hneg]
      simp
    have ihr := ih { history := dequeAppend cfg.max_buffer_len s.history 0, consecutive_count := 0, last_alert_time := s.last_alert_time } rfl
    constructor
    · simp only [runAlerts, runTracker, List.map_cons, hstep, List.length_cons]
      rw [List.replicate_succ]
      exact congrArg (List.cons false) ihr.1
    · simp only [finalState, runTracker, List.map_cons, hstep]
      exact ihr.2

/-- C4: an emitted alert leaves the counter at zero and the history empty; from
a zero counter, concealment-free frames keep the counter at zero and emit no
alert (for a positive threshold); and from a zero counter no alert can be
emitted in fewer than `alert_frames_threshold` frames, whatever the flags and
times — so the next alert requires a fresh full run. -/
theorem c4_reset_after_alert (cfg : TheftConfig R) :
    (∀ (s : TrackerState R) (flag : Bool) (now : R),
      (step cfg s flag now).2 = true →
        (step cfg s flag now).1.consecutive_count = 0 ∧
        (step cfg s flag now).1.history = []) ∧
    (∀ (s : TrackerState R) (ts : List R),
      0 < cfg.alert_frames_threshold → s.consecutive_count = 0 →
        runAlerts cfg s (ts.map fun t => (false, t)) = List.replicate ts.length false ∧
        (finalState cfg s (ts.map fun t => (false, t))).consecutive_count = 0) ∧
    (∀ (s : TrackerState R) (frames : List (Bool × R)),
      s.consecutive_count = 0 → frames.length < cfg.alert_frames_threshold →
        runAlerts cfg s frames = List.replicate frames.length false) := by
  refine ⟨?_, ?_, ?_⟩
  · intro s flag now h
    have hc := (step_emits_iff cfg s flag now).mp h
    rw [step_pos cfg s flag now hc]
    exact ⟨rfl, rfl⟩
  · intro s ts hpos h0
    exact runTracker_false_frames cfg hpos ts s h0
  · intro s frames h0 hlen
    exact runAlerts_short cfg frames s (by omega)

/-- Witness for C4 at concrete inputs: a firing step at time 100 from counter 2
(with two entries of history) resets counter and history; two concealment-free
frames from a fresh counter emit nothing and keep it at zero; and two frames,
concealment present or not, cannot re-trigger with the default threshold 3. -/
theorem c4_reset_after_alert_witness :
    ((step (R := ℤ) defaultConfig { history := [1, 1], consecutive_count := 2, last_alert_time := 0 } true 100).1.consecutive_count = 0 ∧
      (step (R := ℤ) defaultConfig { history := [1, 1], consecutive_count := 2, last_alert_time := 0 } true 100).1.history = []) ∧
    (runAlerts (R := ℤ) defaultConfig { history := [], consecutive_count := 0, last_alert_time := 100 } ([101, 102].map fun t => (false, t)) = List.replicate 2 false ∧
      (finalState (R := ℤ) defaultConfig { history := [], consecutive_count := 0, last_alert_time := 100 } ([101, 102].map fun t => (false, t))).consecutive_count = 0) ∧
    runAlerts (R := ℤ) defaultConfig { history := [], consecutive_count := 0, last_alert_time := 100 } [(true, 200), (true, 201)] = List.replicate 2 false :=
  ⟨(c4_reset_after_alert (R := ℤ) defaultConfig).1
      { history := [1, 1], consecutive_count := 2, last_alert_time := 0 } true 100 (by decide),
   (c4_reset_after_alert (R := ℤ) defaultConfig).2.1
      { history := [], consecutive_count := 0, last_alert_time := 100 } [101, 102]
      (by decide) (by decide),
   (c4_reset_after_alert (R := ℤ) defaultConfig).2.2
      { history := [], consecutive_count := 0, last_alert_time := 100 }
      [(true, 200), (true, 201)] (by decide) (by decide)⟩

/-- The history deque after an append has length `min (previous + 1) capacity`. -/
theorem dequeAppend_length (maxlen : Nat) (h : List Nat) (x : Nat) :
    (dequeAppend maxlen h x).length = min (h.length + 1) maxlen := by
  show (if maxlen < (h ++ [x]).length then (h ++ [x]).drop ((h ++ [x]).length - maxlen) else h ++ [x]).length = min (h.length + 1) maxlen
  by_cases hc : maxlen < (h ++ [x]).length
  · rw [if_pos hc, List.length_drop]
    simp only [List.length_append, List.length_cons, List.length_nil] at hc ⊢
    omega
  · rw [if_neg hc]
    simp only [List.length_append, List.length_cons, List.length_nil] at hc ⊢
    omega

/-- Invariant preserved by any run: the history stays within capacity, and the
consecutive counter clipped at capacity stays below the history length. -/
theorem tracker_invariant (cfg : TheftConfig R) :
    ∀ (frames : List (Bool × R)) (s : TrackerState R),
      s.history.length ≤ cfg.max_buffer_len →
      min s.consecutive_count cfg.max_buffer_len ≤ s.history.length →
      (finalState cfg s frames).history.length ≤ cfg.max_buffer_len ∧
      min (finalState cfg s frames).consecutive_count cfg.max_buffer_len ≤
        (finalState cfg s frames).history.length := by
  intro frames
  induction frames with
  | nil => intro s h1 h2; exact ⟨h1, h2⟩
  | cons f rest ih =>
    intro s h1 h2
    obtain ⟨flag, t⟩ := f
    by_cases h : cfg.alert_frames_threshold ≤ (if flag then s.consecutive_count + 1 else 0) ∧
        cfg.alert_cooldown < t - s.last_alert_time
    · have hstep := step_pos cfg s flag t h
      simp only [finalState, runTracker, hstep]
      exact ih { history := [], consecutive_count := 0, last_alert_time := t }
        (Nat.zero_le _) (by simp)
    · have hstep := step_neg cfg s flag t h
      simp only [finalState, runTracker, hstep]
      refine ih _ ?_ ?_
      · show (dequeAppend cfg.max_buffer_len s.history (if flag then 1 else 0)).length ≤ cfg.max_buffer_len
        rw [dequeAppend_length]
        omega
      · show min (if flag then s.consecutive_count + 1 else 0) cfg.max_buffer_len ≤
          (dequeAppend cfg.max_buffer_len s.history (if flag then 1 else 0)).length
        rw [dequeAppend_length]
        split <;> omega

/-- Counterexample to C7 as stated: eleven consecutive concealment frames at
times 0..10 from the initial state (all within the initial 30-second cooldown,
so no alert fires) drive the counter to 11 while the history deque saturates at
its capacity 10, violating `consecutive_count ≤ history length`. -/
theorem c7_count_exceeds_history_length :
    (finalState (R := ℤ) defaultConfig initState
        [(true, 0), (true, 1), (true, 2), (true, 3), (true, 4), (true, 5), (true, 6), (true, 7), (true, 8), (true, 9), (true, 10)]).consecutive_count = 11 ∧
    (finalState (R := ℤ) defaultConfig initState
        [(true, 0), (true, 1), (true, 2), (true, 3), (true, 4), (true, 5), (true, 6), (true, 7), (true, 8), (true, 9), (true, 10)]).history.length = 10 ∧
    ¬ ((finalState (R := ℤ) defaultConfig initState
        [(true, 0), (true, 1), (true, 2), (true, 3), (true, 4), (true, 5), (true, 6), (true, 7), (true, 8), (true, 9), (true, 10)]).consecutive_count ≤
      (finalState (R := ℤ) defaultConfig initState
        [(true, 0), (true, 1), (true, 2), (true, 3), (true, 4), (true, 5), (true, 6), (true, 7), (true, 8), (true, 9), (true, 10)]).history.length) := by
  decide

/-- C7 amended: in every reachable state the consecutive counter clipped at the
window capacity `max_buffer_len` is at most the History Window length (so the
original bound holds exactly as long as the counter has not outgrown the
capacity; past that the window saturates while the counter keeps growing). -/
theorem c7_amended_clipped_count_le_history (cfg : TheftConfig R)
    (frames : List (Bool × R)) :
    min (finalState cfg initState frames).consecutive_count cfg.max_buffer_len ≤
      (finalState cfg initState frames).history.length :=
  (tracker_invariant cfg frames initState (by simp [initState]) (by simp [initState])).2

/-- Counterexample to C9 as stated: with the spec's literal frame times 0..5
and the initial state (whose `last_alert_time` is 0), the gate condition
`now - last_alert_time > 30` fails at every frame, so no alert fires at all —
in particular none at t = 4 as the claim requires. -/
theorem c9_literal_times_no_alert :
    runAlerts (R := ℤ) defaultConfig initState scenarioAFrames =
      [false, false, false, false, false, false] ∧
    runAlerts (R := ℤ) defaultConfig initState scenarioAFrames ≠
      [false, false, false, false, true, false] := by
  decide

/-- C9 amended: Scenario A with its six frame times shifted by any offset
`t0 > 26` (so that the third consecutive concealment frame, at `t0 + 4`,
clears the initial cooldown `now - 0 > 30`): exactly one alert fires, at the
frame at `t0 + 4`, and none at `t0 + 5`. -/
theorem c9_amended_shifted_scenario_a (t0 : R) (h : (26 : R) < t0) :
    runAlerts defaultConfig initState
      [(false, t0), (false, t0 + 1), (true, t0 + 2), (true, t0 + 3), (true, t0 + 4), (false, t0 + 5)] =
    [false, false, false, false, true, false] := by
  have h4 : (30 : R) < t0 + 4 := by
    calc (30 : R) = 26 + 4 := by norm_num
    _ < t0 + 4 := add_lt_add_right h 4
  simp only [runAlerts, runTracker, step, dequeAppend, initState, defaultConfig]
  norm_num [h4]

/-- Witness for the amended C9 at the concrete offset 100: times 100..105
produce exactly one alert, at the fifth frame. -/
theorem c9_amended_witness :
    runAlerts (R := ℤ) defaultConfig initState
      [(false, 100), (false, 100 + 1), (true, 100 + 2), (true, 100 + 3), (true, 100 + 4), (false, 100 + 5)] =
    [false, false, false, false, true, false] :=
  c9_amended_shifted_scenario_a (R := ℤ) 100 (by decide)

/-- Counterexample to C5 as stated: on the Scenario C input, where the
detector raises on frame 5 of 10, the loop body of `run` (which has no
exception handler around the detector call) stops with the exception after
processing only the first four frames, instead of treating the frame as
empty and processing all ten. -/
theorem c5_detector_exception_crashes_loop :
    (processFrames (R := ℤ) defaultConfig initState scenarioCFrames).1.length = 4 ∧
    (processFrames (R := ℤ) defaultConfig initState scenarioCFrames).2.2 = some "boom" ∧
    ¬ ((processFrames (R := ℤ) defaultConfig initState scenarioCFrames).1.length = 10 ∧
       (processFrames (R := ℤ) defaultConfig initState scenarioCFrames).2.2 = none) := by
  decide

/-- C5 amended: a detector call that merely returns malformed output (a `None`
box set) yields zero detections — in particular no concealment signal — and
the loop continues; but a detector call that raises is not caught: the frames
before the first raising frame are exactly the ones processed, and the run
ends without an exception exactly when no frame raises. -/
theorem c5_amended_exception_propagates (cfg : TheftConfig R) :
    (∀ (frames : List (FrameObs R)) (s : TrackerState R),
      (processFrames cfg s frames).1.length =
        (frames.takeWhile (fun f => !f.det.isExn)).length ∧
      (processFrames cfg s frames).2.2.isNone = frames.all (fun f => !f.det.isExn)) ∧
    extractClasses none = [] ∧
    (extractClasses none).any (fun c => c == product_concealed_id) = false ∧
    extractClasses (some []) = [] := by
  refine ⟨?_, rfl, rfl, rfl⟩
  intro frames
  induction frames with
  | nil => intro s; exact ⟨rfl, rfl⟩
  | cons f rest ih =>
    intro s
    obtain ⟨d, t⟩ := f
    cases d with
    | exn m =>
      simp [processFrames, List.takeWhile_cons, DetOutcome.isExn]
    | ok raw =>
      have ihr := ih ((step cfg s ((extractClasses raw).any (fun c => c == product_concealed_id)) t).1)
      have htake : List.takeWhile (fun (f : FrameObs R) => !f.det.isExn) ({ det := DetOutcome.ok raw, time := t } :: rest) = { det := DetOutcome.ok raw, time := t } :: List.takeWhile (fun (f : FrameObs R) => !f.det.isExn) rest := rfl
      have hall : ({ det := DetOutcome.ok raw, time := t } :: rest).all (fun f => !f.det.isExn) = rest.all (fun f => !f.det.isExn) := rfl
      simp only [processFrames, htake, hall, List.length_cons]
      exact ⟨by rw [ihr.1], ihr.2⟩

/-- C6: on every alert, the event trace of the alert path starts with the
snapshot write, so the snapshot is on disk before any notification attempt;
whatever the dispatcher outcome (any status code or a raised exception, which
`_send_telegram_photo` catches), the trace contains no file removal and
replaying it over any file system leaves the snapshot present. -/
theorem c6_snapshot_before_dispatch_and_persists (tc : TelegramConfig)
    (net : NetOutcome) (snapshot_path caption : String) (fs0 : List String) :
    (alertAction tc net snapshot_path caption).1.head? =
      some (Event.fsWrite snapshot_path) ∧
    snapshot_path ∈ applyEvents fs0 (alertAction tc net snapshot_path caption).1 ∧
    (alertAction tc net snapshot_path caption).1.all (fun e => !e.isRemove) = true := by
  by_cases hd : tc.use_telegram = false ∨ tc.telegram_token = "" ∨ tc.telegram_chat_id = ""
  · simp [alertAction, sendTelegramPhoto, hd, applyEvents, applyEvent, Event.isRemove]
  · cases net with
    | response code =>
      simp [alertAction, sendTelegramPhoto, sendAttempt, hd, applyEvents, applyEvent, Event.isRemove]
    | exn m =>
      simp [alertAction, sendTelegramPhoto, sendAttempt, hd, applyEvents, applyEvent, Event.isRemove]

/-- Counterexample to C8 as stated: with Telegram enabled and configured, a
201 response — a 2xx success status — still makes `_send_telegram_photo`
return `false`, because the code compares the status to 200 exactly. -/
theorem c8_status_201_returns_false :
    (sendTelegramPhoto { use_telegram := true, telegram_token := "token", telegram_chat_id := "chat" } (NetOutcome.response 201) "alerts/theft.jpg" "caption").1 = false ∧
    200 ≤ 201 ∧ 201 ≤ 299 := by
  decide

/-- C8 amended: the dispatcher returns `true` exactly when Telegram is enabled
and configured and the response status is exactly 200; every other outcome —
disabled configuration, any non-200 status (including other 2xx codes), or a
raised exception or timeout — returns `false`. -/
theorem c8_amended_success_iff_status_200 (tc : TelegramConfig) (net : NetOutcome)
    (image_path caption : String) :
    (sendTelegramPhoto tc net image_path caption).1 = true ↔
      (¬ (tc.use_telegram = false ∨ tc.telegram_token = "" ∨ tc.telegram_chat_id = "") ∧
        net = NetOutcome.response 200) := by
  by_cases hd : tc.use_telegram = false ∨ tc.telegram_token = "" ∨ tc.telegram_chat_id = ""
  · simp [sendTelegramPhoto, hd]
  · cases net with
    | response code =>
      simp [sendTelegramPhoto, sendAttempt, hd]
    | exn m =>
      simp [sendTelegramPhoto, sendAttempt, hd]

/-- C10: when Telegram is disabled or the bot token or chat id is empty,
`_send_telegram_photo` returns `false` with an empty event trace — no file is
opened and no network call is made (and the tracker state, which the function
never touches, is unchanged). -/
theorem c10_disabled_no_effect (tc : TelegramConfig) (net : NetOutcome)
    (image_path caption : String)
    (h : tc.use_telegram = false ∨ tc.telegram_token = "" ∨ tc.telegram_chat_id = "") :
    sendTelegramPhoto tc net image_path caption = (false, []) := by
  simp [sendTelegramPhoto, h]

/-- Witness for C10 at concrete inputs: with `use_telegram := false` the send
is a no-op returning `false`. -/
theorem c10_disabled_witness :
    sendTelegramPhoto { use_telegram := false, telegram_token := "x", telegram_chat_id := "y" } (NetOutcome.response 200) "alerts/theft.jpg" "cap" = (false, []) :=
  c10_disabled_no_effect _ _ _ _ (Or.inl rfl)

end RetailX
